import Mathlib

/-
Verification of the media-job orchestration core of the streaming-platform
repository: the playout scheduler service (per-channel playlist loop driven
by playout events) and the restream fanout service (per-destination ffmpeg
remux processes driven by stream events), together with the API routes that
publish those events.

The definitions below are a shallow embedding of the TypeScript services:
  - the playout service: getPlaylist snapshot, playItem (ffmpeg close
    handler), the startPlayout while loop with its clean and abnormal exit
    paths, stopPlayout and the activePlayouts map;
  - the restream service: getPlatformRtmpUrl (credential resolver),
    handleStreamStart fanout, handleStreamStop, handleRestreamStop, the
    startRestream close handler, and the restream stop route.
External effects (database writes, process spawns, kills) are recorded as
explicit trace elements or state fields; the nondeterministic environment
(exit codes of spawned processes, results of playlist refreshes, outcomes
of store writes) is supplied through oracle functions.
-/

/-! ## Playout service: data model -/

structure PlaylistItem where
  id : String
  vodId : String
  filePath : String
  duration : Nat
  position : Nat
deriving DecidableEq

/-- The close handler of playItem: the promise resolves when the ffmpeg
subprocess exits with code 0 or 255 (255 is produced by an intentional
SIGTERM kill), and rejects with an error for every other exit code. -/
def playItemClose (code : Int) : Except String Unit :=
  if code = 0 ∨ code = 255 then Except.ok ()
  else Except.error ("FFmpeg exited with code " ++ toString code)

/-- Oracles standing for the environment of one startPlayout run: the loop
flag of the start event, the exit code of the nth spawned subprocess, the
playlist returned by the nth wraparound refresh query, and whether the nth
current_item_index store write succeeds. -/
structure PlayCfg where
  loopFlag : Bool
  exits : Nat → Int
  refreshes : Nat → List PlaylistItem
  writes : Nat → Bool

/-- Mutable state of the startPlayout while loop: currentIndex, the playlist
snapshot held by this run, and cursors into the three oracles. -/
structure LoopSt where
  idx : Nat
  snapshot : List PlaylistItem
  spawnN : Nat
  refreshN : Nat
  writeN : Nat
deriving DecidableEq

/-- Observable actions of one startPlayout run, in program order. -/
inductive Effect where
  | persistIndex (i : Nat)
  | persistIndexFail (i : Nat)
  | spawnItem (it : PlaylistItem)
  | deleteRegistry
  | statusStopped
deriving DecidableEq

/-- Outcome of running the playout loop with bounded fuel: the loop exited
and ran its cleanup (finished), an exception escaped the loop skipping the
cleanup (aborted), or the fuel ran out mid-run (running, with the surviving
loop state exposed). -/
inductive RunOut where
  | finished (trace : List Effect)
  | aborted (trace : List Effect)
  | running (trace : List Effect) (st : LoopSt)
deriving DecidableEq

def RunOut.prepend (pre : List Effect) : RunOut → RunOut
  | .finished t => .finished (pre ++ t)
  | .aborted t => .aborted (pre ++ t)
  | .running t st => .running (pre ++ t) st

/-- The body of startPlayout after registration, transcribed from the
source: fetch the item at currentIndex (on a missing item, reset to 0 and
continue when looping, else break to cleanup); write current_item_index
(an exception here escapes the loop and skips the cleanup); play the item;
on a resolved playItem advance, refreshing the snapshot at wraparound when
looping; on a rejected playItem advance identically but without refreshing;
stop when the index passes the end and the loop flag is off. -/
def playLoop (cfg : PlayCfg) : Nat → LoopSt → RunOut
  | 0, st => RunOut.running [] st
  | fuel+1, st =>
    match st.snapshot[st.idx]? with
    | none =>
      if cfg.loopFlag then playLoop cfg fuel { st with idx := 0 }
      else RunOut.finished [Effect.deleteRegistry, Effect.statusStopped]
    | some item =>
      if cfg.writes st.writeN then
        let code := cfg.exits st.spawnN
        let st1 : LoopSt := { st with spawnN := st.spawnN + 1, writeN := st.writeN + 1 }
        let pre : List Effect := [Effect.persistIndex st.idx, Effect.spawnItem item]
        match playItemClose code with
        | Except.ok _ =>
          if st1.snapshot.length ≤ st1.idx + 1 then
            if cfg.loopFlag then
              RunOut.prepend pre (playLoop cfg fuel
                { st1 with idx := 0, snapshot := cfg.refreshes st1.refreshN,
                           refreshN := st1.refreshN + 1 })
            else RunOut.finished (pre ++ [Effect.deleteRegistry, Effect.statusStopped])
          else RunOut.prepend pre (playLoop cfg fuel { st1 with idx := st1.idx + 1 })
        | Except.error _ =>
          if st1.snapshot.length ≤ st1.idx + 1 then
            if cfg.loopFlag then
              RunOut.prepend pre (playLoop cfg fuel { st1 with idx := 0 })
            else RunOut.finished (pre ++ [Effect.deleteRegistry, Effect.statusStopped])
          else RunOut.prepend pre (playLoop cfg fuel { st1 with idx := st1.idx + 1 })
      else RunOut.aborted [Effect.persistIndexFail st.idx]

/-- The trace a clean, non-looping run is expected to leave: for each item,
an index write followed by a spawn, then the registry delete and the final
stopped status write. -/
def expectedCleanTrace : Nat → List PlaylistItem → List Effect
  | _, [] => [Effect.deleteRegistry, Effect.statusStopped]
  | i, it :: rest => Effect.persistIndex i :: Effect.spawnItem it :: expectedCleanTrace (i+1) rest

/-! ## Playout service: registry (activePlayouts map) -/

/-- One entry of the activePlayouts map: the stored child process reference
(null at registration, filled in by playItem), the currentItem cursor, the
playlist snapshot and the loop flag. -/
structure PlayoutEntry where
  proc : Option Nat
  currentItem : Nat
  playlist : List PlaylistItem
  loopFlag : Bool
deriving DecidableEq

abbrev Registry := List (String × PlayoutEntry)

def regLookup : Registry → String → Option PlayoutEntry
  | [], _ => none
  | (k, v) :: rest, ch => if k = ch then some v else regLookup rest ch

def regSet : Registry → String → PlayoutEntry → Registry
  | [], ch, v => [(ch, v)]
  | (k, w) :: rest, ch, v => if k = ch then (ch, v) :: rest else (k, w) :: regSet rest ch v

def regErase : Registry → String → Registry
  | [], _ => []
  | (k, w) :: rest, ch => if k = ch then rest else (k, w) :: regErase rest ch

/-- Result of the prefix of startPlayout that runs before the play loop:
the registry after the handler acted, the channel status values it wrote,
and whether a play loop (hence a first subprocess spawn) was started. -/
structure StartOutcome where
  registry : Registry
  statusWrites : List String
  loopStarted : Bool
deriving DecidableEq

/-- The prefix of startPlayout, transcribed from the source: if the loaded
playlist snapshot is empty, write status stopped and return without
touching the registry; otherwise set the channel entry in activePlayouts
(unconditionally, with no already-running check) and enter the play loop. -/
def startPlayoutInit (reg : Registry) (channelId : String)
    (playlist : List PlaylistItem) (lf : Bool) : StartOutcome :=
  if playlist.isEmpty then
    { registry := reg, statusWrites := ["stopped"], loopStarted := false }
  else
    { registry := regSet reg channelId { proc := none, currentItem := 0, playlist := playlist, loopFlag := lf },
      statusWrites := [], loopStarted := true }

/-- stopPlayout, transcribed from the source: look the channel up in
activePlayouts; if an entry with a stored process exists, kill that process;
in every case delete the map entry. It returns the new registry and the
list of process ids that received a kill signal. -/
def stopPlayout (reg : Registry) (channelId : String) : Registry × List Nat :=
  match regLookup reg channelId with
  | some e =>
    (regErase reg channelId, match e.proc with | some pid => [pid] | none => [])
  | none => (regErase reg channelId, [])

/-! ## Playout service: start and stop interleaving -/

/-- Service-level state for interleaving playout events: the activePlayouts
map, the pids that were sent a kill signal, and the pids spawned so far. -/
structure SvcState where
  reg : Registry
  killed : List Nat
  spawned : List Nat
deriving DecidableEq

/-- Atomic service steps: delivery of a playout stop event, the moment
startPlayout sets the registry entry, and the moment the play loop spawns
a subprocess and stores its reference in the entry. -/
inductive SvcEv where
  | stopEvt (ch : String)
  | registerEvt (ch : String) (pl : List PlaylistItem) (lf : Bool)
  | spawnEvt (ch : String) (pid : Nat)
deriving DecidableEq

def svcStep (s : SvcState) : SvcEv → SvcState
  | SvcEv.stopEvt ch =>
    let r := stopPlayout s.reg ch
    { reg := r.1, killed := s.killed ++ r.2, spawned := s.spawned }
  | SvcEv.registerEvt ch pl lf =>
    { reg := regSet s.reg ch { proc := none, currentItem := 0, playlist := pl, loopFlag := lf },
      killed := s.killed, spawned := s.spawned }
  | SvcEv.spawnEvt ch pid =>
    match regLookup s.reg ch with
    | some e =>
      { reg := regSet s.reg ch { e with proc := some pid },
        killed := s.killed, spawned := s.spawned ++ [pid] }
    | none => { reg := s.reg, killed := s.killed, spawned := s.spawned ++ [pid] }

def svcRun (s : SvcState) : List SvcEv → SvcState
  | [] => s
  | ev :: rest => svcRun (svcStep s ev) rest

/-! ## Restream service -/

inductive DStatus where
  | pending
  | active
  | failed
  | stopped
deriving DecidableEq

structure RtmpInfo where
  rtmpUrl : String
  streamKey : String
deriving DecidableEq

/-- The fields the fanout writes for one destination: the status row value,
the error_message column, whether an ffmpeg process was spawned for it, and
the rtmp_url column written on success. -/
structure DestOutcome where
  status : DStatus
  errorMessage : Option String
  spawned : Bool
  resolvedUrl : Option String
deriving DecidableEq

/-- One iteration of the handleStreamStart for loop, transcribed from the
source: resolve credentials via getPlatformRtmpUrl; on a null result write
status failed with the error message and continue with the next
destination; otherwise spawn the ffmpeg process, register it, and write
status active with the resolved rtmp url. -/
def processDest (resolver : String → Option RtmpInfo) (destId : String) : DestOutcome :=
  match resolver destId with
  | none =>
    { status := DStatus.failed,
      errorMessage := some "Failed to get platform RTMP credentials",
      spawned := false, resolvedUrl := none }
  | some info =>
    { status := DStatus.active, errorMessage := none,
      spawned := true, resolvedUrl := some info.rtmpUrl }

/-- The handleStreamStart fanout over the enabled destinations of a stream,
processed in order by the for loop of the source. -/
def handleStreamStart (resolver : String → Option RtmpInfo) :
    List String → List (String × DestOutcome)
  | [] => []
  | d :: rest => (d, processDest resolver d) :: handleStreamStart resolver rest

/-- Per-destination restream state: the persisted status row, whether the
destination id is present in the activeProcesses map, and whether a SIGTERM
was sent to its process. -/
structure RestState where
  dbStatus : DStatus
  inRegistry : Bool
  sigtermSent : Bool
deriving DecidableEq

/-- The close handler installed by startRestream, transcribed from the
source: on process exit, delete the id from activeProcesses and write the
status row from the exit code, stopped for code 0 and failed for every
other code, unconditionally. -/
def processCloseStep (code : Int) (s : RestState) : RestState :=
  { dbStatus := if code = 0 then DStatus.stopped else DStatus.failed,
    inRegistry := false, sigtermSent := s.sigtermSent }

/-- The handleStreamStop handler restricted to one destination, transcribed
from the source: a destination is selected only while its status row is
active; its process (if registered) is killed and removed from the map, and
the status row is updated to stopped. -/
def streamStopStep (s : RestState) : RestState :=
  if s.dbStatus = DStatus.active then
    { dbStatus := DStatus.stopped, inRegistry := false,
      sigtermSent := s.sigtermSent || s.inRegistry }
  else s

/-- The handleRestreamStop handler, transcribed from the source: if the
destination id is in activeProcesses, kill the process and delete the
entry; otherwise do nothing. It writes no status row and the returned flag
records whether an error was raised (never). -/
def handleRestreamStop (s : RestState) : RestState × Bool :=
  if s.inRegistry then
    ({ dbStatus := s.dbStatus, inRegistry := false, sigtermSent := true }, false)
  else (s, false)

/-- The restream stop route, transcribed from the source: update the
destination row to status stopped unconditionally, then publish the
restream stop event. -/
def restreamStopRoute (s : RestState) : RestState :=
  { dbStatus := DStatus.stopped, inRegistry := s.inRegistry, sigtermSent := s.sigtermSent }

/-- The full path of issuing a restream stop for an existing destination:
the route writes the stopped status and publishes, then the service handler
consumes the event. -/
def restreamStopPath (s : RestState) : RestState × Bool :=
  handleRestreamStop (restreamStopRoute s)

/-! ## Concrete data used by witnesses and counterexamples -/

def itA : PlaylistItem := { id := "i1", vodId := "v1", filePath := "f1", duration := 10, position := 0 }

def itB : PlaylistItem := { id := "i2", vodId := "v2", filePath := "f2", duration := 5, position := 1 }

def cfgClean : PlayCfg :=
  { loopFlag := false, exits := fun _ => 0, refreshes := fun _ => [], writes := fun _ => true }

def cfgAbn : PlayCfg :=
  { loopFlag := true, exits := fun _ => 1, refreshes := fun _ => [itB], writes := fun _ => true }

def cfgLoopClean : PlayCfg :=
  { loopFlag := true, exits := fun _ => 0, refreshes := fun _ => [itB], writes := fun _ => true }

def cfgWriteFail : PlayCfg :=
  { loopFlag := false, exits := fun _ => 0, refreshes := fun _ => [], writes := fun _ => false }

def stA : LoopSt := { idx := 0, snapshot := [itA], spawnN := 0, refreshN := 0, writeN := 0 }

def entryRunning : PlayoutEntry :=
  { proc := some 7, currentItem := 3, playlist := [itA], loopFlag := false }

def regRunning : Registry := [("C", entryRunning)]

def resolverW : String → Option RtmpInfo :=
  fun d => if d = "B" then none else some { rtmpUrl := "rtmp://live", streamKey := "k" }

/-! ## Helper lemmas -/

theorem regLookup_regSet (reg : Registry) (ch : String) (v : PlayoutEntry) :
    regLookup (regSet reg ch v) ch = some v := by
  induction reg with
  | nil => simp [regSet, regLookup]
  | cons p rest ih =>
    obtain ⟨k, w⟩ := p
    by_cases h : k = ch
    · simp [regSet, regLookup, h]
    · simp [regSet, regLookup, h, ih]

theorem length_regSet_of_lookup (reg : Registry) (ch : String) (v e : PlayoutEntry)
    (h : regLookup reg ch = some e) : (regSet reg ch v).length = reg.length := by
  induction reg with
  | nil => simp [regLookup] at h
  | cons p rest ih =>
    obtain ⟨k, w⟩ := p
    by_cases hk : k = ch
    · simp [regSet, hk]
    · simp [regLookup, hk] at h
      simp [regSet, hk, ih h]

theorem regErase_of_lookup_none (reg : Registry) (ch : String)
    (h : regLookup reg ch = none) : regErase reg ch = reg := by
  induction reg with
  | nil => simp [regErase]
  | cons p rest ih =>
    obtain ⟨k, w⟩ := p
    by_cases hk : k = ch
    · simp [regLookup, hk] at h
    · simp [regLookup, hk] at h
      simp [regErase, hk, ih h]

theorem handleStreamStart_eq_map (resolver : String → Option RtmpInfo) (ds : List String) :
    handleStreamStart resolver ds = ds.map (fun d => (d, processDest resolver d)) := by
  induction ds with
  | nil => rfl
  | cons d rest ih => simp [handleStreamStart, ih]

/-! ## Claim theorems -/

/-- Claim C9: for every channel whose playlist snapshot is empty at start,
startPlayout fails immediately to Stopped: the channel status is written
stopped, no play loop begins (so no subprocess is spawned), and the
registry is untouched, so no entry for the channel is created. -/
theorem start_empty_playlist_stops (reg : Registry) (ch : String) (lf : Bool) :
    startPlayoutInit reg ch [] lf =
      { registry := reg, statusWrites := ["stopped"], loopStarted := false } := by
  simp [startPlayoutInit]

/-- Claim C10: the playItem promise resolves (a clean finish, advancing the
index as on success) exactly when the ffmpeg exit code is 0 or 255; every
other exit code rejects the promise and takes the abnormal-exit path. -/
theorem playItem_resolves_iff_exit_code (code : Int) :
    playItemClose code = Except.ok () ↔ (code = 0 ∨ code = 255) := by
  unfold playItemClose
  by_cases h : code = 0 ∨ code = 255 <;> simp [h]

/-- Claim C8: issuing a restream stop for a destination whose subprocess
has already exited externally (with any exit code) raises no error, and the
destination ends with status stopped: the stop route writes the stopped row
unconditionally, and the handler finds no registered process and does
nothing further. -/
theorem restream_stop_after_external_exit (s : RestState) (code : Int) :
    (restreamStopPath (processCloseStep code s)).2 = false
    ∧ (restreamStopPath (processCloseStep code s)).1.dbStatus = DStatus.stopped := by
  simp [restreamStopPath, processCloseStep, restreamStopRoute, handleRestreamStop]

/-- Claim C1 counterexample: delivering a second playout start for the
already-running channel C is not a no-op. startPlayout performs no
already-running check: it starts a second play loop (loopStarted is true,
so a second subprocess is spawned) and replaces the registry entry of C
(dropping the stored process reference and resetting the item cursor). -/
theorem start_duplicate_not_noop_cex :
    (startPlayoutInit regRunning "C" [itA] false).loopStarted = true
    ∧ (startPlayoutInit regRunning "C" [itA] false).registry ≠ regRunning := by
  constructor
  · rfl
  · decide

/-- Claim C1 amended: delivering a second playout start for a running
channel is not a no-op. The handler starts a second play loop, overwrites
the channel registry entry with a fresh one (item cursor 0, new snapshot,
no stored process); only the registry size is unchanged. -/
theorem start_duplicate_overwrites_entry (reg : Registry) (ch : String)
    (pl : List PlaylistItem) (lf : Bool) (e : PlayoutEntry)
    (hrun : regLookup reg ch = some e) (hne : pl ≠ []) :
    (startPlayoutInit reg ch pl lf).loopStarted = true
    ∧ regLookup (startPlayoutInit reg ch pl lf).registry ch =
        some { proc := none, currentItem := 0, playlist := pl, loopFlag := lf }
    ∧ (startPlayoutInit reg ch pl lf).registry.length = reg.length := by
  have hempty : pl.isEmpty = false := by
    cases pl with
    | nil => exact absurd rfl hne
    | cons a l => rfl
  refine ⟨?_, ?_, ?_⟩
  · simp [startPlayoutInit, hempty]
  · simp [startPlayoutInit, hempty, regLookup_regSet]
  · simp [startPlayoutInit, hempty]
    exact length_regSet_of_lookup reg ch _ e hrun

theorem start_duplicate_overwrites_entry_witness :
    (startPlayoutInit regRunning "C" [itB] true).loopStarted = true
    ∧ regLookup (startPlayoutInit regRunning "C" [itB] true).registry "C" =
        some { proc := none, currentItem := 0, playlist := [itB], loopFlag := true }
    ∧ (startPlayoutInit regRunning "C" [itB] true).registry.length = regRunning.length :=
  start_duplicate_overwrites_entry regRunning "C" [itB] true entryRunning (by decide) (by decide)

/-- Claim C2 counterexample: a stop delivered for channel C before the
start handler has registered the slot is lost. In the run stop, register,
spawn from the empty registry, the stop step leaves the whole service state
unchanged (nothing is killed and no cancel-before-start mark is recorded),
and at the end the spawned process 7 is running and was never killed. -/
theorem stop_before_register_dropped_cex :
    svcStep { reg := [], killed := [], spawned := [] } (SvcEv.stopEvt "C") =
      { reg := [], killed := [], spawned := [] }
    ∧ (svcRun { reg := [], killed := [], spawned := [] }
        [SvcEv.stopEvt "C", SvcEv.registerEvt "C" [itA] false, SvcEv.spawnEvt "C" 7]).spawned = [7]
    ∧ (svcRun { reg := [], killed := [], spawned := [] }
        [SvcEv.stopEvt "C", SvcEv.registerEvt "C" [itA] false, SvcEv.spawnEvt "C" 7]).killed = [] := by
  refine ⟨?_, ?_, ?_⟩ <;> decide

/-- Claim C2 amended: stopPlayout on a not-yet-registered channel id is a
silent no-op: it kills nothing, deletes nothing, and records no
cancel-before-start mark, so a stop that races ahead of registration does
not terminate the subsequently spawned subprocess. -/
theorem stop_unregistered_noop (s : SvcState) (ch : String)
    (h : regLookup s.reg ch = none) :
    svcStep s (SvcEv.stopEvt ch) = s ∧ stopPlayout s.reg ch = (s.reg, []) := by
  have hstop : stopPlayout s.reg ch = (s.reg, []) := by
    simp [stopPlayout, h, regErase_of_lookup_none s.reg ch h]
  refine ⟨?_, hstop⟩
  simp [svcStep, hstop]

theorem stop_unregistered_noop_witness :
    svcStep { reg := [], killed := [], spawned := [] } (SvcEv.stopEvt "C") =
      { reg := [], killed := [], spawned := [] }
    ∧ stopPlayout ([] : Registry) "C" = (([] : Registry), []) :=
  stop_unregistered_noop { reg := [], killed := [], spawned := [] } "C" rfl

/-- Claim C3: in a stream-start fanout where exactly one destination fails
credential resolution, each destination outcome is a function of that
destination alone (the for loop threads nothing between iterations, so one
failure cannot prevent or delay any sibling), every other destination
reaches status active with a spawned process, and the failing destination
reaches status failed with a non-null error message. -/
theorem fanout_single_failure_isolation (resolver : String → Option RtmpInfo)
    (ds : List String) (b : String)
    (hb : resolver b = none)
    (hothers : ∀ d ∈ ds, d ≠ b → (resolver d).isSome = true) :
    handleStreamStart resolver ds = ds.map (fun d => (d, processDest resolver d))
    ∧ (∀ d ∈ ds, d ≠ b →
        (processDest resolver d).status = DStatus.active
        ∧ (processDest resolver d).spawned = true)
    ∧ (processDest resolver b).status = DStatus.failed
    ∧ (processDest resolver b).errorMessage.isSome = true := by
  refine ⟨handleStreamStart_eq_map resolver ds, ?_, ?_, ?_⟩
  · intro d hd hne
    have hsome := hothers d hd hne
    obtain ⟨info, hinfo⟩ := Option.isSome_iff_exists.mp hsome
    simp [processDest, hinfo]
  · simp [processDest, hb]
  · simp [processDest, hb]

theorem fanout_single_failure_isolation_witness :
    (processDest resolverW "A").status = DStatus.active
    ∧ (processDest resolverW "C").status = DStatus.active
    ∧ (processDest resolverW "B").status = DStatus.failed
    ∧ (processDest resolverW "B").errorMessage.isSome = true :=
  ⟨((fanout_single_failure_isolation resolverW ["A", "B", "C"] "B" (by decide)
      (by decide)).2.1 "A" (by decide) (by decide)).1,
   ((fanout_single_failure_isolation resolverW ["A", "B", "C"] "B" (by decide)
      (by decide)).2.1 "C" (by decide) (by decide)).1,
   (fanout_single_failure_isolation resolverW ["A", "B", "C"] "B" (by decide)
      (by decide)).2.2.1,
   (fanout_single_failure_isolation resolverW ["A", "B", "C"] "B" (by decide)
      (by decide)).2.2.2⟩

/-- Claim C6 counterexample: a destination that is active when the stream
stop event arrives is first written stopped, but when its killed ffmpeg
process exits with code 255 the close handler of startRestream overwrites
the row to failed. The destination therefore ends with status failed after
a stream stop, and the write sequence active, stopped, failed is not
monotonic. -/
theorem stream_stop_then_close_failed_cex :
    (streamStopStep { dbStatus := DStatus.active, inRegistry := true, sigtermSent := false }).dbStatus
      = DStatus.stopped
    ∧ (processCloseStep 255 (streamStopStep
        { dbStatus := DStatus.active, inRegistry := true, sigtermSent := false })).dbStatus
      = DStatus.failed := by
  refine ⟨?_, ?_⟩ <;> decide

/-- Claim C6 amended: on a stream stop event each destination that is
active is terminated and its status written stopped, but the close handler
of the killed process then rewrites the row from the exit code: the
destination ends stopped only when the killed process exits with code 0,
and failed for every other exit code, so the status sequence within one
run is not monotonic. -/
theorem stream_stop_final_status (s : RestState) (code : Int)
    (h : s.dbStatus = DStatus.active) :
    (streamStopStep s).dbStatus = DStatus.stopped
    ∧ (streamStopStep s).sigtermSent = (s.sigtermSent || s.inRegistry)
    ∧ (processCloseStep code (streamStopStep s)).dbStatus =
        (if code = 0 then DStatus.stopped else DStatus.failed) := by
  refine ⟨?_, ?_, ?_⟩ <;> simp [streamStopStep, processCloseStep, h]

theorem stream_stop_final_status_witness :
    (streamStopStep { dbStatus := DStatus.active, inRegistry := true, sigtermSent := false }).dbStatus
      = DStatus.stopped
    ∧ (streamStopStep { dbStatus := DStatus.active, inRegistry := true, sigtermSent := false }).sigtermSent
      = (false || true)
    ∧ (processCloseStep 1 (streamStopStep
        { dbStatus := DStatus.active, inRegistry := true, sigtermSent := false })).dbStatus
      = (if (1 : Int) = 0 then DStatus.stopped else DStatus.failed) :=
  stream_stop_final_status { dbStatus := DStatus.active, inRegistry := true, sigtermSent := false } 1 rfl

theorem playItemClose_zero : playItemClose 0 = Except.ok () := by
  simp [playItemClose]

/-- Claim C7 amended: a store write failure on the current_item_index write
is not retried. The write sits outside the try block of the loop body, so
the exception aborts the per-channel loop at once: the trace records the
single failed attempt, no further iteration runs, and the cleanup (registry
delete and stopped status write) is skipped. -/
theorem index_write_failure_aborts (cfg : PlayCfg) (st : LoopSt) (item : PlaylistItem) (fuel : Nat)
    (hitem : st.snapshot[st.idx]? = some item)
    (hw : cfg.writes st.writeN = false) :
    playLoop cfg (fuel + 1) st = RunOut.aborted [Effect.persistIndexFail st.idx] := by
  obtain ⟨i, snap, sN, rN, wN⟩ := st
  simp only at hitem hw
  simp [playLoop, hitem, hw]

/-- Claim C7 counterexample: with a playlist of one item and a store whose
index write fails, the run aborts after exactly one write attempt (no
retry, no backoff, no cleanup effects), even with ample fuel; with the same
playlist and a working store the run finishes normally. This refutes the
claim that a failed write is retried and never aborts the loop. -/
theorem index_write_failure_aborts_cex :
    playLoop cfgWriteFail 5 stA = RunOut.aborted [Effect.persistIndexFail 0]
    ∧ playLoop cfgClean 1 stA =
        RunOut.finished [Effect.persistIndex 0, Effect.spawnItem itA,
          Effect.deleteRegistry, Effect.statusStopped] := by
  refine ⟨?_, ?_⟩ <;> decide

theorem index_write_failure_aborts_witness :
    playLoop cfgWriteFail 3 stA = RunOut.aborted [Effect.persistIndexFail 0] :=
  index_write_failure_aborts cfgWriteFail stA itA 2 rfl rfl

/-- Claim C5 amended: after any exit of the subprocess playing the last
item of the snapshot with the loop flag set, the index resets to 0 exactly
as after a clean exit, but the snapshot is refreshed only when the exit was
clean (playItem resolved): on an abnormal exit the catch branch resets the
index without refreshing, so the old snapshot is replayed. -/
theorem abnormal_wrap_keeps_snapshot (cfg : PlayCfg) (st : LoopSt) (item : PlaylistItem) (fuel : Nat)
    (hloop : cfg.loopFlag = true)
    (hitem : st.snapshot[st.idx]? = some item)
    (hlast : st.snapshot.length ≤ st.idx + 1)
    (hw : cfg.writes st.writeN = true) :
    playLoop cfg (fuel + 1) st =
      RunOut.prepend [Effect.persistIndex st.idx, Effect.spawnItem item]
        (playLoop cfg fuel
          (match playItemClose (cfg.exits st.spawnN) with
           | Except.ok _ =>
             { st with idx := 0, snapshot := cfg.refreshes st.refreshN,
                       refreshN := st.refreshN + 1, spawnN := st.spawnN + 1,
                       writeN := st.writeN + 1 }
           | Except.error _ =>
             { st with idx := 0, spawnN := st.spawnN + 1, writeN := st.writeN + 1 })) := by
  obtain ⟨i, snap, sN, rN, wN⟩ := st
  simp only at hitem hlast hw ⊢
  cases hres : playItemClose (cfg.exits sN) with
  | ok u =>
    cases u
    simp [playLoop, hitem, hw, hres, hlast, hloop]
  | error e =>
    simp [playLoop, hitem, hw, hres, hlast, hloop]

theorem abnormal_wrap_keeps_snapshot_witness :
    playLoop cfgAbn 1 stA =
      RunOut.prepend [Effect.persistIndex 0, Effect.spawnItem itA]
        (playLoop cfgAbn 0 { idx := 0, snapshot := [itA], spawnN := 1, refreshN := 0, writeN := 1 }) := by
  have h := abnormal_wrap_keeps_snapshot cfgAbn stA itA 0 rfl rfl (by decide) rfl
  simpa [stA, cfgAbn, playItemClose] using h

/-- Claim C5 counterexample: channel with snapshot of the single item itA,
loop flag set, and a refresh query that would return the edited playlist
containing itB. When the item exits abnormally (code 1) the surviving run
state keeps the old snapshot with itA, while after a clean exit (code 0)
the snapshot is the refreshed playlist with itB; the two snapshots differ,
so an abnormal exit on the last item is not treated identically to a clean
exit with respect to the wraparound refresh of step 6. -/
theorem abnormal_wrap_no_refresh_cex :
    playLoop cfgAbn 1 stA = RunOut.running [Effect.persistIndex 0, Effect.spawnItem itA]
      { idx := 0, snapshot := [itA], spawnN := 1, refreshN := 0, writeN := 1 }
    ∧ playLoop cfgLoopClean 1 stA = RunOut.running [Effect.persistIndex 0, Effect.spawnItem itA]
      { idx := 0, snapshot := [itB], spawnN := 1, refreshN := 1, writeN := 1 }
    ∧ ([itA] : List PlaylistItem) ≠ [itB] := by
  refine ⟨?_, ?_, ?_⟩ <;> decide

theorem playLoop_step_clean_mid (cfg : PlayCfg) (st : LoopSt) (item : PlaylistItem) (fuel : Nat)
    (hitem : st.snapshot[st.idx]? = some item)
    (hw : cfg.writes st.writeN = true)
    (hok : playItemClose (cfg.exits st.spawnN) = Except.ok ())
    (hmid : ¬ (st.snapshot.length ≤ st.idx + 1)) :
    playLoop cfg (fuel + 1) st =
      RunOut.prepend [Effect.persistIndex st.idx, Effect.spawnItem item]
        (playLoop cfg fuel
          { st with idx := st.idx + 1, spawnN := st.spawnN + 1, writeN := st.writeN + 1 }) := by
  obtain ⟨i, snap, sN, rN, wN⟩ := st
  simp only at hitem hw hok hmid ⊢
  simp [playLoop, hitem, hw, hok, hmid]

theorem playLoop_step_clean_last_noloop (cfg : PlayCfg) (st : LoopSt) (item : PlaylistItem) (fuel : Nat)
    (hloop : cfg.loopFlag = false)
    (hitem : st.snapshot[st.idx]? = some item)
    (hw : cfg.writes st.writeN = true)
    (hok : playItemClose (cfg.exits st.spawnN) = Except.ok ())
    (hlast : st.snapshot.length ≤ st.idx + 1) :
    playLoop cfg (fuel + 1) st =
      RunOut.finished [Effect.persistIndex st.idx, Effect.spawnItem item,
        Effect.deleteRegistry, Effect.statusStopped] := by
  obtain ⟨i, snap, sN, rN, wN⟩ := st
  simp only at hitem hw hok hlast ⊢
  simp [playLoop, hitem, hw, hok, hlast, hloop]

theorem playLoop_clean_seg (cfg : PlayCfg)
    (hloop : cfg.loopFlag = false) (hexit : ∀ n, cfg.exits n = 0)
    (hw : ∀ n, cfg.writes n = true) :
    ∀ (tl pl : List PlaylistItem) (it : PlaylistItem) (i sN rN wN fuel : Nat),
      pl.drop i = it :: tl →
      playLoop cfg (fuel + (tl.length + 1))
          { idx := i, snapshot := pl, spawnN := sN, refreshN := rN, writeN := wN } =
        RunOut.finished (expectedCleanTrace i (it :: tl)) := by
  intro tl
  induction tl with
  | nil =>
    intro pl it i sN rN wN fuel hdrop
    have hget : pl[i]? = some it := by
      have h := List.getElem?_drop pl i 0
      rw [hdrop] at h
      simpa using h.symm
    have hi : i < pl.length := by
      by_contra hle
      push_neg at hle
      rw [List.drop_eq_nil_of_le hle] at hdrop
      cases hdrop
    have hlen : pl.length = i + 1 := by
      have h1 := congrArg List.length hdrop
      simp [List.length_drop] at h1
      omega
    have hok : playItemClose (cfg.exits sN) = Except.ok () := by
      rw [hexit sN]; exact playItemClose_zero
    have h := playLoop_step_clean_last_noloop cfg
      { idx := i, snapshot := pl, spawnN := sN, refreshN := rN, writeN := wN }
      it fuel hloop hget (hw wN) hok (by simp; omega)
    simpa [expectedCleanTrace] using h
  | cons it2 tl2 ih =>
    intro pl it i sN rN wN fuel hdrop
    have hget : pl[i]? = some it := by
      have h := List.getElem?_drop pl i 0
      rw [hdrop] at h
      simpa using h.symm
    have hi : i < pl.length := by
      by_contra hle
      push_neg at hle
      rw [List.drop_eq_nil_of_le hle] at hdrop
      cases hdrop
    have hlen : pl.length = i + (tl2.length + 2) := by
      have h1 := congrArg List.length hdrop
      simp [List.length_drop] at h1
      omega
    have hdrop2 : pl.drop (i + 1) = it2 :: tl2 := by
      have h := List.tail_drop pl i
      rw [hdrop] at h
      simpa using h.symm
    have hok : playItemClose (cfg.exits sN) = Except.ok () := by
      rw [hexit sN]; exact playItemClose_zero
    have hstep : fuel + ((it2 :: tl2).length + 1) = (fuel + (tl2.length + 1)) + 1 := by
      simp [List.length_cons]; omega
    rw [hstep]
    have h := playLoop_step_clean_mid cfg
      { idx := i, snapshot := pl, spawnN := sN, refreshN := rN, writeN := wN }
      it (fuel + (tl2.length + 1)) hget (hw wN) hok (by simp; omega)
    rw [h]
    have hih := ih pl it2 (i + 1) (sN + 1) rN (wN + 1) fuel hdrop2
    simp only at hih
    rw [hih]
    simp [RunOut.prepend, expectedCleanTrace]

/-- Claim C4: for every non-empty, non-looping playlist of length N, a run
in which every store write succeeds and every subprocess exits cleanly
(code 0) leaves exactly the trace that writes current_item_index 0 through
N-1, each write immediately before the spawn of its item, and ends with the
registry delete followed by the stopped status write; the run reaches the
finished outcome, so the channel is stopped and absent from the registry. -/
theorem playout_clean_run_trace (cfg : PlayCfg) (pl : List PlaylistItem)
    (hloop : cfg.loopFlag = false) (hexit : ∀ n, cfg.exits n = 0)
    (hw : ∀ n, cfg.writes n = true) (hne : pl ≠ []) :
    playLoop cfg pl.length { idx := 0, snapshot := pl, spawnN := 0, refreshN := 0, writeN := 0 } =
      RunOut.finished (expectedCleanTrace 0 pl) := by
  cases pl with
  | nil => exact absurd rfl hne
  | cons it tl =>
    have h := playLoop_clean_seg cfg hloop hexit hw tl (it :: tl) it 0 0 0 0 0 (by simp)
    simpa using h

theorem playout_clean_run_trace_witness :
    playLoop cfgClean 2 { idx := 0, snapshot := [itA, itB], spawnN := 0, refreshN := 0, writeN := 0 } =
      RunOut.finished [Effect.persistIndex 0, Effect.spawnItem itA, Effect.persistIndex 1,
        Effect.spawnItem itB, Effect.deleteRegistry, Effect.statusStopped] := by
  have h := playout_clean_run_trace cfgClean [itA, itB] rfl (fun _ => rfl) (fun _ => rfl) (by decide)
  simpa [expectedCleanTrace] using h
